import Mathlib

/-!
Verification development for the Pyrra ServiceLevelObjective reconciler
(kubernetes/controllers/servicelevelobjective.go).

The Go source is shallowly embedded: the pure artifact builders and rule
translators become Lean functions, and the stateful reconcile functions
become explicit state-passing functions over a store state, recording
every external store call in a trace.  External collaborators (the
objective rule computations, the Kubernetes object store, the Mimir
client, the YAML serializer and Go's duration parser) are modelled at
the interfaces the source consumes.
-/

namespace Pyrra

/-! ## Durations (Go time.Duration, in nanoseconds) -/

def nanosecond : Int := 1

def microsecond : Int := 1000

def millisecond : Int := 1000000

def second : Int := 1000000000

def minute : Int := 60 * second

def hour : Int := 60 * minute

/-! ## Go time.ParseDuration, modelled from the Go standard library.

A duration string is an optional sign followed by a sequence of decimal
numbers, each with an optional fraction and a mandatory unit suffix,
such as "300ms" or "2h45m"; "0" alone is also accepted.  On any error
the Go function returns the pair (0, err); the embedding returns
`Except.error`, and call sites that discard the error keep the zero
value, mirroring `forVal, _ = time.ParseDuration(...)` in the source.
Fractional contributions are computed with integer division (the Go
source uses a float approximation; no claim depends on fractional
precision). -/

def isDigit (c : Char) : Bool := '0' ≤ c && c ≤ '9'

def digitsToNat (ds : List Char) : Nat :=
  ds.foldl (fun a c => a * 10 + (c.toNat - 48)) 0

def unitTable : List (String × Int) :=
  [("ns", nanosecond), ("us", microsecond), ("µs", microsecond), ("μs", microsecond),
   ("ms", millisecond), ("s", second), ("m", minute), ("h", hour)]

def lookupUnit (u : List Char) : Option Int :=
  (unitTable.find? (fun p => p.1.toList = u)).map (fun p => p.2)

def parseDurationLoop : Nat → List Char → Int → Except String Int
  | 0, _, _ => .error "time: invalid duration"
  | _ + 1, [], acc => .ok acc
  | fuel + 1, s, acc =>
    let intPart := s.takeWhile isDigit
    let rest1 := s.dropWhile isDigit
    let fracPart :=
      match rest1 with
      | '.' :: t => t.takeWhile isDigit
      | _ => []
    let rest2 :=
      match rest1 with
      | '.' :: t => t.dropWhile isDigit
      | _ => rest1
    if intPart = [] ∧ fracPart = [] then .error "time: invalid duration"
    else
      let unitChars := rest2.takeWhile (fun c => !isDigit c && c ≠ '.')
      let rest3 := rest2.dropWhile (fun c => !isDigit c && c ≠ '.')
      match lookupUnit unitChars with
      | none => .error "time: unknown unit in duration"
      | some u =>
        let v : Int := (digitsToNat intPart : Int) * u
        let scale : Int := (10 : Int) ^ fracPart.length
        let fv : Int := (digitsToNat fracPart : Int) * u / scale
        parseDurationLoop fuel rest3 (acc + v + fv)

def parseDuration (s : String) : Except String Int :=
  let cs := s.toList
  let neg : Bool :=
    match cs with
    | '-' :: _ => true
    | _ => false
  let cs1 :=
    match cs with
    | '-' :: t => t
    | '+' :: t => t
    | _ => cs
  if cs1 = ['0'] then .ok 0
  else if cs1 = [] then .error "time: invalid duration"
  else (parseDurationLoop (cs1.length + 1) cs1 0).map (fun d => if neg then -d else d)

def isErr {ε α : Type} : Except ε α → Bool
  | .error _ => true
  | .ok _ => false

/-! ## Data model: rules and rule groups (monitoringv1, rulefmt) -/

/-- monitoringv1.Rule: a recording rule (Record set) or an alerting rule
(Alert set), discriminated in the source by `Alert != ""`.  `forDur`
models the optional `For *monitoringv1.Duration` string. -/
structure Rule where
  record : String := ""
  alert : String := ""
  expr : String := ""
  forDur : Option String := none
  labels : List (String × String) := []
  annotations : List (String × String) := []
deriving Repr, DecidableEq

/-- monitoringv1.RuleGroup. -/
structure RuleGroup where
  name : String := ""
  interval : Option String := none
  rules : List Rule := []
deriving Repr, DecidableEq

/-- A yaml.v3 node as produced by Node.SetString: it carries the scalar
string value. -/
structure YamlNode where
  value : String := ""
deriving Repr, DecidableEq

def yamlStringNode (val : String) : YamlNode := { value := val }

/-- rulefmt.RuleNode; `forDuration` models the model.Duration `For`
field in nanoseconds (zero value 0). -/
structure RuleNode where
  record : YamlNode := {}
  alert : YamlNode := {}
  expr : YamlNode := {}
  forDuration : Int := 0
  labels : List (String × String) := []
  annotations : List (String × String) := []
deriving Repr, DecidableEq

/-- rwrulefmt.RuleGroup (the embedded rulefmt.RuleGroup part used by the
source: name, interval, rules). -/
structure RWRuleGroup where
  name : String := ""
  interval : Int := 0
  rules : List RuleNode := []
deriving Repr, DecidableEq

/-! ## Errors -/

/-- Go error values as the source distinguishes them: the sentinel
slo.ErrGroupingUnsupported, a store not-found condition, any other
error, and fmt.Errorf("...: %w", err) wrapping. -/
inductive GoError
  | groupingUnsupported
  | notFound
  | other (msg : String)
  | wrap (ctx : String) (err : GoError)
deriving Repr, DecidableEq

/-! ## The objective collaborator and the SLO resource -/

deriving instance DecidableEq for Except

/-- The external slo.Objective collaborator, specified by the interface
the source consumes: three lazily produced rule-group computations, any
of which may fail; GenericRules may fail with the distinguished
grouping-unsupported sentinel. -/
structure Objective where
  increaseRules : Except GoError RuleGroup
  burnrates : Except GoError RuleGroup
  genericRules : Except GoError RuleGroup
deriving Repr, DecidableEq

/-- The status sub-resource of the SLO custom resource (Status.Type). -/
structure ObjectiveStatus where
  type : String := ""
deriving Repr, DecidableEq

/-- pyrrav1alpha1.ServiceLevelObjective: identity metadata plus the
Internal() collaborator (which may fail) and the status sub-resource.
`ns` models the namespace. -/
structure ServiceLevelObjective where
  apiVersion : String := ""
  kind : String := ""
  name : String := ""
  ns : String := ""
  uid : String := ""
  labels : List (String × String) := []
  internal : Except GoError Objective
  status : ObjectiveStatus := {}
deriving Repr, DecidableEq

/-! ## Kubernetes artifact shapes -/

structure OwnerReference where
  apiVersion : String := ""
  kind : String := ""
  name : String := ""
  uid : String := ""
  controller : Bool := false
deriving Repr, DecidableEq

structure TypeMeta where
  kind : String := ""
  apiVersion : String := ""
deriving Repr, DecidableEq

structure ObjectMeta where
  name : String := ""
  ns : String := ""
  labels : List (String × String) := []
  ownerReferences : List OwnerReference := []
  resourceVersion : String := ""
deriving Repr, DecidableEq

structure PrometheusRuleSpec where
  groups : List RuleGroup := []
deriving Repr, DecidableEq

structure PrometheusRule where
  typeMeta : TypeMeta := {}
  metadata : ObjectMeta := {}
  spec : PrometheusRuleSpec := {}
deriving Repr, DecidableEq

structure ConfigMap where
  typeMeta : TypeMeta := {}
  metadata : ObjectMeta := {}
  data : List (String × String) := []
deriving Repr, DecidableEq

/-- Models the external YAML serializer (sigs.k8s.io/yaml.Marshal) as a
deterministic total encoding; the claims only compare serializations of
equal rule specs for equality, never inspect the text. -/
def yamlMarshal (spec : PrometheusRuleSpec) : String :=
  reprStr spec

/-! ## Rule translators (remote-push / Mimir format) -/

def prometheusRuleToMimirRuleNode (promRule : Rule) : RuleNode :=
  if promRule.alert ≠ "" then
    let forVal : Int :=
      match promRule.forDur with
      | none => 5 * minute
      | some s =>
        -- Go: forVal, _ = time.ParseDuration(string(*promRule.For));
        -- on a parse error the error is discarded and forVal is the
        -- zero value returned alongside it.
        match parseDuration s with
        | .ok d => d
        | .error _ => 0
    { expr := yamlStringNode promRule.expr
      alert := yamlStringNode promRule.alert
      forDuration := forVal
      labels := promRule.labels
      annotations := promRule.annotations }
  else
    { expr := yamlStringNode promRule.expr
      record := yamlStringNode promRule.record
      labels := promRule.labels }

def prometheusRulesToMimirRules (promRules : List Rule) (writeAlertingRules : Bool) :
    List RuleNode :=
  match promRules with
  | [] => []
  | r :: rest =>
    if r.alert ≠ "" ∧ writeAlertingRules = false then
      prometheusRulesToMimirRules rest writeAlertingRules
    else
      prometheusRuleToMimirRuleNode r :: prometheusRulesToMimirRules rest writeAlertingRules

/-! ## Artifact builders -/

def makeConfigMap (name : String) (kubeObjective : ServiceLevelObjective)
    (genericRules : Bool) : Except GoError ConfigMap :=
  match kubeObjective.internal with
  | .error e => .error (.wrap "failed to get objective" e)
  | .ok objective =>
  match objective.increaseRules with
  | .error e => .error (.wrap "failed to get increase rules" e)
  | .ok increases =>
  match objective.burnrates with
  | .error e => .error (.wrap "failed to get burn rate rules" e)
  | .ok burnrates =>
  let rule : PrometheusRuleSpec := { groups := [increases, burnrates] }
  let ruleResult : Except GoError PrometheusRuleSpec :=
    if genericRules then
      match objective.genericRules with
      | .error e =>
        if e ≠ .groupingUnsupported then .error (.wrap "failed to get generic rules" e)
        else .ok rule -- ignore these rules
      | .ok rules => .ok { rule with groups := rule.groups ++ [rules] }
    else .ok rule
  match ruleResult with
  | .error e => .error e
  | .ok rule =>
    let bytes := yamlMarshal rule
    let data := [(name ++ ".rules.yaml", bytes)]
    .ok { typeMeta := { kind := "ConfigMap", apiVersion := "v1" }
          metadata := { name := name
                        ns := kubeObjective.ns
                        labels := kubeObjective.labels
                        ownerReferences := [{ apiVersion := kubeObjective.apiVersion
                                              kind := kubeObjective.kind
                                              name := kubeObjective.name
                                              uid := kubeObjective.uid
                                              controller := true }] }
          data := data }

def makeMimirRuleGroup (kubeObjective : ServiceLevelObjective)
    (genericRules writeAlertingRules : Bool) : Except GoError RWRuleGroup :=
  match kubeObjective.internal with
  | .error e => .error (.wrap "failed to get objective" e)
  | .ok objective =>
  match objective.increaseRules with
  | .error e => .error (.wrap "failed to get increase rules" e)
  | .ok increases =>
  let increasesMimirRules := prometheusRulesToMimirRules increases.rules writeAlertingRules
  match objective.burnrates with
  | .error e => .error (.wrap "failed to get burn rate rules" e)
  | .ok burnrates =>
  let burnratesMimirRules := prometheusRulesToMimirRules burnrates.rules writeAlertingRules
  -- the source preallocates a slice and copies the increase nodes
  -- followed by the burn-rate nodes, i.e. their concatenation
  let combinedRules := increasesMimirRules ++ burnratesMimirRules
  .ok { name := kubeObjective.name
        interval := 30 * second
        rules := combinedRules }

def prometheusRuleKind : String := "PrometheusRule"

def monitoringGroupName : String := "monitoring.coreos.com"

def monitoringVersion : String := "v1"

def makePrometheusRule (kubeObjective : ServiceLevelObjective)
    (genericRules : Bool) : Except GoError PrometheusRule :=
  match kubeObjective.internal with
  | .error e => .error (.wrap "failed to get objective" e)
  | .ok objective =>
  match objective.increaseRules with
  | .error e => .error (.wrap "failed to get increase rules" e)
  | .ok increases =>
  match objective.burnrates with
  | .error e => .error (.wrap "failed to get burn rate rules" e)
  | .ok burnrates =>
  let rule : PrometheusRuleSpec := { groups := [increases, burnrates] }
  let ruleResult : Except GoError PrometheusRuleSpec :=
    if genericRules then
      match objective.genericRules with
      | .error e =>
        if e ≠ .groupingUnsupported then .error (.wrap "failed to get generic rules" e)
        else .ok rule -- ignore these rules
      | .ok rules => .ok { rule with groups := rule.groups ++ [rules] }
    else .ok rule
  match ruleResult with
  | .error e => .error e
  | .ok rule =>
    .ok { typeMeta := { kind := prometheusRuleKind
                        apiVersion := monitoringGroupName ++ "/" ++ monitoringVersion }
          metadata := { name := kubeObjective.name
                        ns := kubeObjective.ns
                        labels := kubeObjective.labels
                        ownerReferences := [{ apiVersion := kubeObjective.apiVersion
                                              kind := kubeObjective.kind
                                              name := kubeObjective.name
                                              uid := kubeObjective.uid
                                              controller := true }] }
          spec := rule }

/-! ## The object store, the trace of external calls, and the reconcilers

The external stores (the Kubernetes API server for PrometheusRules,
ConfigMaps and the SLO status sub-resource, and the Mimir ruler API)
are modelled as association lists keyed by identity.  Every external
call the source issues is recorded in a trace; fallible calls can be
made to fail through an `Injections` record (all-`none` by default),
which models transient store errors at each call site. -/

def lookupObj {α : Type} (l : List ((String × String) × α)) (k : String × String) :
    Option α :=
  match l with
  | [] => none
  | (k2, v) :: rest => if k2 = k then some v else lookupObj rest k

def upsertObj {α : Type} (l : List ((String × String) × α)) (k : String × String)
    (v : α) : List ((String × String) × α) :=
  match l with
  | [] => [(k, v)]
  | (k2, v2) :: rest => if k2 = k then (k, v) :: rest else (k2, v2) :: upsertObj rest k v

/-- The state of the external stores.  The model tracks the single SLO
under reconciliation (the store may also report it absent). -/
structure StoreState where
  slo : Option ServiceLevelObjective := none
  promRules : List ((String × String) × PrometheusRule) := []
  configMaps : List ((String × String) × ConfigMap) := []
  mimirGroups : List ((String × String) × RWRuleGroup) := []
deriving Repr, DecidableEq

/-- One external call issued by the reconciler, recorded whether or not
the call succeeds. -/
inductive Call
  | getSLO (ns name : String)
  | getPromRule (ns name : String)
  | createPromRule (rule : PrometheusRule)
  | updatePromRule (rule : PrometheusRule)
  | getConfigMap (ns name : String)
  | createConfigMap (cm : ConfigMap)
  | updateConfigMap (cm : ConfigMap)
  | mimirCreateRuleGroup (mimirNs : String) (grp : RWRuleGroup)
  | statusUpdate (slo : ServiceLevelObjective)
deriving Repr, DecidableEq

/-- Injected failures for the fallible store calls; `none` means the
call behaves honestly against the store state. -/
structure Injections where
  getSLOErr : Option String := none
  getPromRuleErr : Option String := none
  createPromRuleErr : Option String := none
  updatePromRuleErr : Option String := none
  ruleStatusErr : Option String := none
  getConfigMapErr : Option String := none
  createConfigMapErr : Option String := none
  updateConfigMapErr : Option String := none
  cmStatusErr : Option String := none
  mimirStatusErr : Option String := none
  mimirCreateErr : Option String := none
deriving Repr, DecidableEq

/-- Reconciler configuration: the static process-level flags of
ServiceLevelObjectiveReconciler. -/
structure Reconciler where
  mimirWriteAlertingRules : Bool := false
  configMapMode : Bool := false
  genericRules : Bool := false
deriving Repr, DecidableEq

/-- Outcome of one reconcile invocation: the post-state, the trace of
external calls, and the returned error (if any). -/
structure RunResult where
  state : StoreState
  trace : List Call
  result : Except GoError Unit
deriving Repr, DecidableEq

/-- Writes the in-memory objective's status to the store's copy of the
SLO (Status().Update). -/
def writeStatus (st : StoreState) (kubeObjective : ServiceLevelObjective) : StoreState :=
  { st with slo := st.slo.map (fun s => { s with status := kubeObjective.status }) }

/-- The tail of reconcilePrometheusRule after the get/create block: the
source falls through out of both branches, unconditionally copies the
fetched rule's ResourceVersion (zero value when not found) onto the new
rule, calls Update, and then writes the status. -/
def finishPromRule (inj : Injections) (kubeObjective : ServiceLevelObjective)
    (newRule : PrometheusRule) (st1 : StoreState) (tr : List Call)
    (fetchedRV : String) : RunResult :=
  let newRule1 := { newRule with
                    metadata := { newRule.metadata with resourceVersion := fetchedRV } }
  let updCall := Call.updatePromRule newRule1
  match inj.updatePromRuleErr with
  | some m =>
    { state := st1, trace := tr ++ [updCall]
      result := .error (.wrap "failed to update prometheus rule" (.other m)) }
  | none =>
    let st2 := { st1 with
                 promRules := upsertObj st1.promRules
                   (newRule1.metadata.ns, newRule1.metadata.name) newRule1 }
    let kubeObjective2 := { kubeObjective with status := { type := "PrometheusRule" } }
    let stCall := Call.statusUpdate kubeObjective2
    match inj.ruleStatusErr with
    | some m => { state := st2, trace := tr ++ [updCall, stCall]
                  result := .error (.other m) }
    | none => { state := writeStatus st2 kubeObjective2
                trace := tr ++ [updCall, stCall], result := .ok () }

def reconcilePrometheusRule (r : Reconciler) (inj : Injections)
    (reqNs reqName : String) (kubeObjective : ServiceLevelObjective)
    (st : StoreState) : RunResult :=
  match makePrometheusRule kubeObjective r.genericRules with
  | .error e => { state := st, trace := [], result := .error e }
  | .ok newRule =>
    let getCall := Call.getPromRule reqNs reqName
    match inj.getPromRuleErr with
    | some m =>
      { state := st, trace := [getCall]
        result := .error (.wrap "failed to get prometheus rule" (.other m)) }
    | none =>
      match lookupObj st.promRules (reqNs, reqName) with
      | none =>
        match inj.createPromRuleErr with
        | some m => { state := st, trace := [getCall, .createPromRule newRule]
                      result := .error (.other m) }
        | none =>
          let stC := { st with
                       promRules := upsertObj st.promRules
                         (newRule.metadata.ns, newRule.metadata.name) newRule }
          finishPromRule inj kubeObjective newRule stC [getCall, .createPromRule newRule] ""
      | some rule =>
        finishPromRule inj kubeObjective newRule st [getCall] rule.metadata.resourceVersion

def reconcileMimirRuleGroup (r : Reconciler) (inj : Injections)
    (reqNs reqName : String) (kubeObjective : ServiceLevelObjective)
    (st : StoreState) : RunResult :=
  match makeMimirRuleGroup kubeObjective r.genericRules r.mimirWriteAlertingRules with
  | .error e => { state := st, trace := [], result := .error e }
  | .ok newRuleGroup =>
    -- the source calls Status().Update first, while Status.Type still
    -- holds whatever the fetched object carried
    let stCall := Call.statusUpdate kubeObjective
    match inj.mimirStatusErr with
    | some m => { state := st, trace := [stCall], result := .error (.other m) }
    | none =>
      let st1 := writeStatus st kubeObjective
      -- Status.Type is assigned on the local copy only after the
      -- status update above, and is never written back afterwards
      let kubeObjective1 := { kubeObjective with status := { type := "MimirRule" } }
      let cCall := Call.mimirCreateRuleGroup kubeObjective1.name newRuleGroup
      match inj.mimirCreateErr with
      | some m => { state := st1, trace := [stCall, cCall], result := .error (.other m) }
      | none =>
        let st2 := { st1 with
                     mimirGroups := upsertObj st1.mimirGroups
                       (kubeObjective1.name, newRuleGroup.name) newRuleGroup }
        { state := st2, trace := [stCall, cCall], result := .ok () }

/-- The tail of reconcileConfigMap after the get/create block: the
source falls through out of both branches, unconditionally copies the
fetched map's ResourceVersion (zero value when not found) onto the new
map, calls Update, and then writes the status. -/
def finishConfigMap (inj : Injections) (kubeObjective : ServiceLevelObjective)
    (newConfigMap : ConfigMap) (st1 : StoreState) (tr : List Call)
    (fetchedRV : String) : RunResult :=
  let newCM1 := { newConfigMap with
                  metadata := { newConfigMap.metadata with resourceVersion := fetchedRV } }
  let updCall := Call.updateConfigMap newCM1
  match inj.updateConfigMapErr with
  | some m =>
    { state := st1, trace := tr ++ [updCall]
      result := .error (.wrap "failed to update config map" (.other m)) }
  | none =>
    let st2 := { st1 with
                 configMaps := upsertObj st1.configMaps
                   (newCM1.metadata.ns, newCM1.metadata.name) newCM1 }
    let kubeObjective2 := { kubeObjective with status := { type := "ConfigMap" } }
    let stCall := Call.statusUpdate kubeObjective2
    match inj.cmStatusErr with
    | some m => { state := st2, trace := tr ++ [updCall, stCall]
                  result := .error (.other m) }
    | none => { state := writeStatus st2 kubeObjective2
                trace := tr ++ [updCall, stCall], result := .ok () }

def reconcileConfigMap (r : Reconciler) (inj : Injections)
    (reqNs reqName : String) (kubeObjective : ServiceLevelObjective)
    (st : StoreState) : RunResult :=
  let name := "pyrra-recording-rule-" ++ kubeObjective.name
  match makeConfigMap name kubeObjective r.genericRules with
  | .error e => { state := st, trace := [], result := .error e }
  | .ok newConfigMap =>
    let getCall := Call.getConfigMap reqNs name
    match inj.getConfigMapErr with
    | some m =>
      { state := st, trace := [getCall]
        result := .error (.wrap "failed to get config map" (.other m)) }
    | none =>
      match lookupObj st.configMaps (reqNs, name) with
      | none =>
        match inj.createConfigMapErr with
        | some m => { state := st, trace := [getCall, .createConfigMap newConfigMap]
                      result := .error (.wrap "failed to create config map" (.other m)) }
        | none =>
          let stC := { st with
                       configMaps := upsertObj st.configMaps
                         (newConfigMap.metadata.ns, newConfigMap.metadata.name) newConfigMap }
          finishConfigMap inj kubeObjective newConfigMap stC
            [getCall, .createConfigMap newConfigMap] ""
      | some existingConfigMap =>
        finishConfigMap inj kubeObjective newConfigMap st [getCall]
          existingConfigMap.metadata.resourceVersion

/-- The reconcile entry point: fetch the SLO (a not-found result is a
benign no-op), then dispatch on ConfigMapMode; otherwise run the Mimir
path and, only on its success, the PrometheusRule path. -/
def Reconcile (r : Reconciler) (inj : Injections) (reqNs reqName : String)
    (st : StoreState) : RunResult :=
  let getCall := Call.getSLO reqNs reqName
  match inj.getSLOErr with
  | some m =>
    { state := st, trace := [getCall], result := .error (.wrap "getting SLO" (.other m)) }
  | none =>
    match st.slo with
    | none => { state := st, trace := [getCall], result := .ok () }
    | some slo =>
      if r.configMapMode then
        let sub := reconcileConfigMap r inj reqNs reqName slo st
        { state := sub.state, trace := getCall :: sub.trace, result := sub.result }
      else
        let sub := reconcileMimirRuleGroup r inj reqNs reqName slo st
        match sub.result with
        | .error e => { state := sub.state, trace := getCall :: sub.trace, result := .error e }
        | .ok _ =>
          let sub2 := reconcilePrometheusRule r inj reqNs reqName slo sub.state
          { state := sub2.state, trace := getCall :: (sub.trace ++ sub2.trace)
            result := sub2.result }

/-! ## Trace classification -/

inductive Backend
  | engineNative
  | configBundle
  | remotePush
deriving Repr, DecidableEq

def Call.isCreateOp : Call → Bool
  | .createPromRule _ => true
  | .createConfigMap _ => true
  | .mimirCreateRuleGroup _ _ => true
  | _ => false

def Call.isUpdateOp : Call → Bool
  | .updatePromRule _ => true
  | .updateConfigMap _ => true
  | _ => false

def Call.isArtifactWrite (c : Call) : Bool := c.isCreateOp || c.isUpdateOp

/-- Artifact fetches (not the SLO fetch of the dispatcher). -/
def Call.isFetch : Call → Bool
  | .getPromRule _ _ => true
  | .getConfigMap _ _ => true
  | _ => false

def Call.backend : Call → Option Backend
  | .getPromRule _ _ => some .engineNative
  | .createPromRule _ => some .engineNative
  | .updatePromRule _ => some .engineNative
  | .getConfigMap _ _ => some .configBundle
  | .createConfigMap _ => some .configBundle
  | .updateConfigMap _ => some .configBundle
  | .mimirCreateRuleGroup _ _ => some .remotePush
  | _ => none

/-- The backends of the artifact writes of a trace, in order. -/
def writeBackends (tr : List Call) : List Backend :=
  tr.filterMap (fun c => if c.isArtifactWrite then c.backend else none)

/-! ## Concrete fixtures used by witnesses and counterexamples -/

def sampleRecordingRule : Rule :=
  { record := "http_requests:increase4w"
    expr := "sum by (status) (increase(http_requests_total[4w]))" }

def sampleAlertingRule : Rule :=
  { alert := "SLOMetricAbsent"
    expr := "absent(http_requests_total) == 1"
    forDur := some "2m"
    labels := [("severity", "critical")] }

def burnrateRecordingRule : Rule :=
  { record := "http_requests:burnrate5m"
    expr := "sum(rate(http_requests_total:errors[5m])) / sum(rate(http_requests_total[5m]))" }

def sampleBurnrateRule : Rule :=
  { alert := "ErrorBudgetBurn"
    expr := "http_requests:burnrate5m > 13.44"
    forDur := some "1m"
    labels := [("severity", "critical")]
    annotations := [("description", "error budget burn")] }

/-- An alerting rule whose "for" string does not parse as a Go duration. -/
def badForRule : Rule :=
  { alert := "SlowBurn"
    expr := "vector(1)"
    forDur := some "banana" }

def sampleIncrease : RuleGroup :=
  { name := "orders-availability-increase"
    rules := [sampleRecordingRule, sampleAlertingRule] }

def sampleBurnrate : RuleGroup :=
  { name := "orders-availability"
    rules := [burnrateRecordingRule, sampleBurnrateRule] }

def sampleGeneric : RuleGroup :=
  { name := "orders-availability-generic"
    rules := [{ record := "slo:sli_error:ratio_rate5m", expr := "vector(0)" }] }

def sampleObjective : Objective :=
  { increaseRules := .ok sampleIncrease
    burnrates := .ok sampleBurnrate
    genericRules := .ok sampleGeneric }

def sampleSLO : ServiceLevelObjective :=
  { apiVersion := "pyrra.dev/v1alpha1"
    kind := "ServiceLevelObjective"
    name := "orders-availability"
    ns := "team-a"
    uid := "uid-1234"
    labels := [("team", "a")]
    internal := .ok sampleObjective }

/-- The store holding just the sample SLO. -/
def sampleState : StoreState := { slo := some sampleSLO }

/-- The reconciler in Mimir (non-config-map) mode with generic rules on. -/
def mimirCfg : Reconciler :=
  { mimirWriteAlertingRules := false, configMapMode := false, genericRules := true }

/-- The reconciler in config-map mode with generic rules on. -/
def cmCfg : Reconciler :=
  { mimirWriteAlertingRules := false, configMapMode := true, genericRules := true }

/-! ## Helper lemmas -/

def okD {ε α : Type} (d : α) : Except ε α → α
  | .ok a => a
  | .error _ => d

theorem lookupObj_upsertObj {α : Type} (l : List ((String × String) × α))
    (k : String × String) (v : α) : lookupObj (upsertObj l k v) k = some v := by
  induction l with
  | nil => simp [upsertObj, lookupObj]
  | cons hd t ih =>
    obtain ⟨k2, v2⟩ := hd
    by_cases hk : k2 = k
    · simp [upsertObj, lookupObj, hk]
    · simp [upsertObj, lookupObj, hk, ih]

theorem makePrometheusRule_ok_meta {slo : ServiceLevelObjective} {g : Bool}
    {pr : PrometheusRule} (h : makePrometheusRule slo g = .ok pr) :
    pr.metadata.name = slo.name ∧ pr.metadata.ns = slo.ns ∧
      pr.metadata.resourceVersion = "" := by
  unfold makePrometheusRule at h
  repeat' split at h
  all_goals simp_all
  all_goals (subst h; exact ⟨rfl, rfl, rfl⟩)

theorem makeConfigMap_ok_meta {n : String} {slo : ServiceLevelObjective} {g : Bool}
    {cm : ConfigMap} (h : makeConfigMap n slo g = .ok cm) :
    cm.metadata.name = n ∧ cm.metadata.ns = slo.ns ∧
      cm.metadata.resourceVersion = "" := by
  unfold makeConfigMap at h
  repeat' split at h
  all_goals simp_all
  all_goals (subst h; exact ⟨rfl, rfl, rfl⟩)

theorem makePrometheusRule_status (slo : ServiceLevelObjective) (s : ObjectiveStatus)
    (g : Bool) : makePrometheusRule { slo with status := s } g = makePrometheusRule slo g :=
  rfl

theorem makeConfigMap_status (n : String) (slo : ServiceLevelObjective)
    (s : ObjectiveStatus) (g : Bool) :
    makeConfigMap n { slo with status := s } g = makeConfigMap n slo g :=
  rfl

theorem makeMimirRuleGroup_status (slo : ServiceLevelObjective) (s : ObjectiveStatus)
    (g w : Bool) :
    makeMimirRuleGroup { slo with status := s } g w = makeMimirRuleGroup slo g w :=
  rfl

theorem mimirRules_false (rules : List Rule) :
    prometheusRulesToMimirRules rules false =
      (rules.filter (fun r => r.alert = "")).map prometheusRuleToMimirRuleNode := by
  induction rules with
  | nil => rfl
  | cons r t ih =>
    by_cases h : r.alert = "" <;>
      simp [prometheusRulesToMimirRules, h, ih, List.filter]

theorem mimirRules_true (rules : List Rule) :
    prometheusRulesToMimirRules rules true = rules.map prometheusRuleToMimirRuleNode := by
  induction rules with
  | nil => rfl
  | cons r t ih => simp [prometheusRulesToMimirRules, ih]

/-! ## Trace lemmas -/

theorem writeBackends_append (t1 t2 : List Call) :
    writeBackends (t1 ++ t2) = writeBackends t1 ++ writeBackends t2 := by
  simp [writeBackends, List.filterMap_append]

theorem finishConfigMap_backends (inj : Injections) (ko : ServiceLevelObjective)
    (cmv : ConfigMap) (st1 : StoreState) (tr : List Call) (rv : String) :
    writeBackends (finishConfigMap inj ko cmv st1 tr rv).trace
      = writeBackends tr ++ [Backend.configBundle] := by
  unfold finishConfigMap
  repeat' split
  all_goals simp [writeBackends_append, writeBackends, Call.isArtifactWrite,
    Call.isCreateOp, Call.isUpdateOp, Call.backend]

theorem finishPromRule_backends (inj : Injections) (ko : ServiceLevelObjective)
    (nr : PrometheusRule) (st1 : StoreState) (tr : List Call) (rv : String) :
    writeBackends (finishPromRule inj ko nr st1 tr rv).trace
      = writeBackends tr ++ [Backend.engineNative] := by
  unfold finishPromRule
  repeat' split
  all_goals simp [writeBackends_append, writeBackends, Call.isArtifactWrite,
    Call.isCreateOp, Call.isUpdateOp, Call.backend]

theorem reconcileConfigMap_backends (r : Reconciler) (inj : Injections)
    (a b : String) (slo : ServiceLevelObjective) (st : StoreState) :
    ∀ x ∈ writeBackends (reconcileConfigMap r inj a b slo st).trace,
      x = Backend.configBundle := by
  intro x hx
  cases hmk : makeConfigMap ("pyrra-recording-rule-" ++ slo.name) slo r.genericRules with
  | error e =>
    simp only [reconcileConfigMap, hmk] at hx
    simp [writeBackends] at hx
  | ok ncm =>
    cases hge : inj.getConfigMapErr with
    | some m =>
      simp only [reconcileConfigMap, hmk, hge] at hx
      simp [writeBackends, Call.isArtifactWrite, Call.isCreateOp, Call.isUpdateOp] at hx
    | none =>
      cases hlk : lookupObj st.configMaps (a, "pyrra-recording-rule-" ++ slo.name) with
      | none =>
        cases hce : inj.createConfigMapErr with
        | some m =>
          simp only [reconcileConfigMap, hmk, hge, hlk, hce] at hx
          simp_all [writeBackends, Call.isArtifactWrite, Call.isCreateOp,
            Call.isUpdateOp, Call.backend]
        | none =>
          simp only [reconcileConfigMap, hmk, hge, hlk, hce] at hx
          rw [finishConfigMap_backends] at hx
          simp_all [writeBackends, Call.isArtifactWrite, Call.isCreateOp,
            Call.isUpdateOp, Call.backend]
      | some ex =>
        simp only [reconcileConfigMap, hmk, hge, hlk] at hx
        rw [finishConfigMap_backends] at hx
        simp_all [writeBackends, Call.isArtifactWrite, Call.isCreateOp,
          Call.isUpdateOp, Call.backend]

theorem reconcilePrometheusRule_backends (r : Reconciler) (inj : Injections)
    (a b : String) (slo : ServiceLevelObjective) (st : StoreState) :
    ∀ x ∈ writeBackends (reconcilePrometheusRule r inj a b slo st).trace,
      x = Backend.engineNative := by
  intro x hx
  unfold reconcilePrometheusRule at hx
  repeat' split at hx
  all_goals (try rw [finishPromRule_backends] at hx)
  all_goals simp_all [writeBackends, Call.isArtifactWrite, Call.isCreateOp,
    Call.isUpdateOp, Call.backend]

theorem reconcileMimirRuleGroup_backends (r : Reconciler) (inj : Injections)
    (a b : String) (slo : ServiceLevelObjective) (st : StoreState) :
    ∀ x ∈ writeBackends (reconcileMimirRuleGroup r inj a b slo st).trace,
      x = Backend.remotePush := by
  intro x hx
  unfold reconcileMimirRuleGroup at hx
  repeat' split at hx
  all_goals simp_all [writeBackends, Call.isArtifactWrite, Call.isCreateOp,
    Call.isUpdateOp, Call.backend]

theorem reconcileMimirRuleGroup_no_fetch_no_update (r : Reconciler) (inj : Injections)
    (a b : String) (slo : ServiceLevelObjective) (st : StoreState) :
    ((reconcileMimirRuleGroup r inj a b slo st).trace.all
      (fun c => !c.isFetch && !c.isUpdateOp)) = true := by
  unfold reconcileMimirRuleGroup
  repeat' split
  all_goals simp [Call.isFetch, Call.isUpdateOp]

theorem reconcileMimirRuleGroup_ok_write (r : Reconciler) (inj : Injections)
    (a b : String) (slo : ServiceLevelObjective) (st : StoreState)
    (h : (reconcileMimirRuleGroup r inj a b slo st).result = .ok ()) :
    Backend.remotePush ∈ writeBackends (reconcileMimirRuleGroup r inj a b slo st).trace := by
  unfold reconcileMimirRuleGroup at *
  repeat' split at h
  all_goals simp_all [writeBackends, Call.isArtifactWrite, Call.isCreateOp,
    Call.isUpdateOp, Call.backend]

theorem reconcilePrometheusRule_ok_write (r : Reconciler) (inj : Injections)
    (a b : String) (slo : ServiceLevelObjective) (st : StoreState)
    (h : (reconcilePrometheusRule r inj a b slo st).result = .ok ()) :
    Backend.engineNative ∈ writeBackends (reconcilePrometheusRule r inj a b slo st).trace := by
  cases hmk : makePrometheusRule slo r.genericRules with
  | error e => simp [reconcilePrometheusRule, hmk] at h
  | ok nr =>
    cases hge : inj.getPromRuleErr with
    | some m => simp [reconcilePrometheusRule, hmk, hge] at h
    | none =>
      cases hlk : lookupObj st.promRules (a, b) with
      | none =>
        cases hce : inj.createPromRuleErr with
        | some m => simp [reconcilePrometheusRule, hmk, hge, hlk, hce] at h
        | none =>
          simp only [reconcilePrometheusRule, hmk, hge, hlk, hce]
          rw [finishPromRule_backends]
          simp
      | some ex =>
        simp only [reconcilePrometheusRule, hmk, hge, hlk]
        rw [finishPromRule_backends]
        simp

theorem writeBackends_cons_getSLO (a b : String) (t : List Call) :
    writeBackends (Call.getSLO a b :: t) = writeBackends t := by
  simp [writeBackends, Call.isArtifactWrite, Call.isCreateOp, Call.isUpdateOp]

theorem reconcileMimirRuleGroup_not_engine (r : Reconciler) (inj : Injections)
    (a b : String) (slo : ServiceLevelObjective) (st : StoreState) :
    ∀ c ∈ (reconcileMimirRuleGroup r inj a b slo st).trace,
      c.backend ≠ some Backend.engineNative := by
  intro c hc
  unfold reconcileMimirRuleGroup at hc
  repeat' split at hc
  all_goals simp_all [Call.backend]
  all_goals (rcases hc with rfl | rfl <;> simp [Call.backend])

/-! ## Claims about rule translation and the artifact builders -/

/-- C4 (amended): translating an alerting rule to the remote-push
format never fails; a missing "for" duration yields exactly the
5-minute default, an unparsable "for" duration yields duration 0 (the
parse error is discarded together with Go's zero return value), and a
parsable one yields the parsed value. -/
theorem c4_duration_fallback (r : Rule) (halert : r.alert ≠ "") :
    (r.forDur = none → (prometheusRuleToMimirRuleNode r).forDuration = 5 * minute)
    ∧ (∀ s e, r.forDur = some s → parseDuration s = .error e →
        (prometheusRuleToMimirRuleNode r).forDuration = 0)
    ∧ (∀ s d, r.forDur = some s → parseDuration s = .ok d →
        (prometheusRuleToMimirRuleNode r).forDuration = d) := by
  unfold prometheusRuleToMimirRuleNode
  rw [if_pos halert]
  exact ⟨fun h => by simp [h], fun s e hs he => by simp [hs, he],
    fun s d hs hd => by simp [hs, hd]⟩

/-- C4 counterexample: the alerting rule badForRule carries the
unparsable "for" string "banana"; the translated remote-push node
carries duration 0, not the 5-minute default the claim requires. -/
theorem c4_counterexample :
    isErr (parseDuration "banana") = true
    ∧ badForRule.alert ≠ ""
    ∧ badForRule.forDur = some "banana"
    ∧ (prometheusRuleToMimirRuleNode badForRule).forDuration = 0
    ∧ (prometheusRuleToMimirRuleNode badForRule).forDuration ≠ 5 * minute := by
  decide

/-- C4 witness: a concrete alerting rule with no "for" duration is
translated with the 5-minute default. -/
theorem c4_witness :
    (prometheusRuleToMimirRuleNode { alert := "A", expr := "vector(1)" }).forDuration
      = 5 * minute :=
  (c4_duration_fallback { alert := "A", expr := "vector(1)" } (by decide)).1 rfl

/-- C5: with alerting-rule forwarding disabled the flattened
remote-push sequence is exactly the recording rules of the increase
group followed by those of the burn-rate group, in original order;
every resulting node is recording-type (empty alert); and recording
rules are never filtered regardless of the flag. -/
theorem c5_alert_filtering (slo : ServiceLevelObjective) (o : Objective)
    (inc burn : RuleGroup) (g : Bool)
    (hint : slo.internal = .ok o) (hinc : o.increaseRules = .ok inc)
    (hburn : o.burnrates = .ok burn) :
    makeMimirRuleGroup slo g false = .ok
      { name := slo.name
        interval := 30 * second
        rules := ((inc.rules.filter (fun r => r.alert = "")).map prometheusRuleToMimirRuleNode)
          ++ ((burn.rules.filter (fun r => r.alert = "")).map prometheusRuleToMimirRuleNode) }
    ∧ (∀ rules n, n ∈ prometheusRulesToMimirRules rules false → n.alert.value = "")
    ∧ (∀ rules flag,
        List.Sublist
          ((rules.filter (fun r => r.alert = "")).map prometheusRuleToMimirRuleNode)
          (prometheusRulesToMimirRules rules flag)) := by
  refine ⟨?_, ?_, ?_⟩
  · simp [makeMimirRuleGroup, hint, hinc, hburn, mimirRules_false]
  · intro rules n hn
    rw [mimirRules_false] at hn
    obtain ⟨r, hr, rfl⟩ := List.mem_map.mp hn
    have halt : r.alert = "" := by simpa using (List.mem_filter.mp hr).2
    simp [prometheusRuleToMimirRuleNode, halt]
  · intro rules flag
    cases flag
    · rw [mimirRules_false]
    · rw [mimirRules_true]
      exact (List.filter_sublist _).map _

/-- C5 witness: a recording and an alerting increase rule plus a
recording and an alerting burn-rate rule, with forwarding disabled,
flatten to exactly the two recording nodes in increase-then-burnrate
order. -/
theorem c5_witness :
    makeMimirRuleGroup sampleSLO true false = .ok
      { name := "orders-availability"
        interval := 30 * second
        rules := [prometheusRuleToMimirRuleNode sampleRecordingRule,
                  prometheusRuleToMimirRuleNode burnrateRecordingRule] } :=
  ((c5_alert_filtering sampleSLO sampleObjective sampleIncrease sampleBurnrate true
      rfl rfl rfl).1).trans (by decide)

/-- C6: with generic rules requested, a grouping-unsupported failure of
the GenericRules collaborator call is not an error: both builders
produce the artifact with exactly the increase and burn-rate groups;
any other GenericRules failure aborts construction with the propagated
(wrapped) error. -/
theorem c6_generic_rules_optional (slo : ServiceLevelObjective) (o : Objective)
    (inc burn : RuleGroup) (n : String)
    (hint : slo.internal = .ok o) (hinc : o.increaseRules = .ok inc)
    (hburn : o.burnrates = .ok burn) :
    (o.genericRules = .error .groupingUnsupported →
      makePrometheusRule slo true = .ok
        { typeMeta := { kind := prometheusRuleKind
                        apiVersion := monitoringGroupName ++ "/" ++ monitoringVersion }
          metadata := { name := slo.name, ns := slo.ns, labels := slo.labels
                        ownerReferences := [{ apiVersion := slo.apiVersion, kind := slo.kind
                                              name := slo.name, uid := slo.uid
                                              controller := true }] }
          spec := { groups := [inc, burn] } }
      ∧ makeConfigMap n slo true = .ok
        { typeMeta := { kind := "ConfigMap", apiVersion := "v1" }
          metadata := { name := n, ns := slo.ns, labels := slo.labels
                        ownerReferences := [{ apiVersion := slo.apiVersion, kind := slo.kind
                                              name := slo.name, uid := slo.uid
                                              controller := true }] }
          data := [(n ++ ".rules.yaml", yamlMarshal { groups := [inc, burn] })] })
    ∧ (∀ e, o.genericRules = .error e → e ≠ .groupingUnsupported →
        makePrometheusRule slo true = .error (.wrap "failed to get generic rules" e)
        ∧ makeConfigMap n slo true = .error (.wrap "failed to get generic rules" e)) := by
  constructor
  · intro hg
    constructor
    · simp [makePrometheusRule, hint, hinc, hburn, hg]
    · simp [makeConfigMap, hint, hinc, hburn, hg]
  · intro e hg hne
    constructor
    · simp [makePrometheusRule, hint, hinc, hburn, hg, hne]
    · simp [makeConfigMap, hint, hinc, hburn, hg, hne]

def unsupportedObjective : Objective :=
  { increaseRules := .ok sampleIncrease
    burnrates := .ok sampleBurnrate
    genericRules := .error .groupingUnsupported }

def unsupportedSLO : ServiceLevelObjective :=
  { sampleSLO with internal := .ok unsupportedObjective }

/-- C6 witness: an Objective whose GenericRules call reports grouping
unsupported builds an engine-native artifact with exactly the increase
and burn-rate groups. -/
theorem c6_witness :
    makePrometheusRule unsupportedSLO true = .ok
      { typeMeta := { kind := prometheusRuleKind
                      apiVersion := monitoringGroupName ++ "/" ++ monitoringVersion }
        metadata := { name := unsupportedSLO.name, ns := unsupportedSLO.ns
                      labels := unsupportedSLO.labels
                      ownerReferences := [{ apiVersion := unsupportedSLO.apiVersion
                                            kind := unsupportedSLO.kind
                                            name := unsupportedSLO.name
                                            uid := unsupportedSLO.uid
                                            controller := true }] }
        spec := { groups := [sampleIncrease, sampleBurnrate] } } :=
  ((c6_generic_rules_optional unsupportedSLO unsupportedObjective sampleIncrease
      sampleBurnrate "x" rfl rfl rfl).1 rfl).1

/-- C8: the config-bundle artifact for an Objective is named
pyrra-recording-rule-<objective-name> and its data holds exactly one
payload key, <bundle-name>.rules.yaml, whose value is the serialization
of the rule-group list — three groups when generic rules are enabled
and supported; moreover every config map written by the config-bundle
reconciler (which derives that name itself) carries exactly that name
and payload. -/
theorem c8_config_bundle (slo : ServiceLevelObjective) (o : Objective)
    (inc burn gen : RuleGroup)
    (hint : slo.internal = .ok o) (hinc : o.increaseRules = .ok inc)
    (hburn : o.burnrates = .ok burn) (hgen : o.genericRules = .ok gen) :
    makeConfigMap ("pyrra-recording-rule-" ++ slo.name) slo true = .ok
      { typeMeta := { kind := "ConfigMap", apiVersion := "v1" }
        metadata := { name := "pyrra-recording-rule-" ++ slo.name, ns := slo.ns
                      labels := slo.labels
                      ownerReferences := [{ apiVersion := slo.apiVersion, kind := slo.kind
                                            name := slo.name, uid := slo.uid
                                            controller := true }] }
        data := [("pyrra-recording-rule-" ++ slo.name ++ ".rules.yaml",
                  yamlMarshal { groups := [inc, burn, gen] })] }
    ∧ (∀ r reqNs reqName st cm, r.genericRules = true →
        (Call.createConfigMap cm ∈ (reconcileConfigMap r {} reqNs reqName slo st).trace
          ∨ Call.updateConfigMap cm ∈ (reconcileConfigMap r {} reqNs reqName slo st).trace) →
        cm.metadata.name = "pyrra-recording-rule-" ++ slo.name ∧
        cm.data = [("pyrra-recording-rule-" ++ slo.name ++ ".rules.yaml",
                    yamlMarshal { groups := [inc, burn, gen] })]) := by
  have hmk : makeConfigMap ("pyrra-recording-rule-" ++ slo.name) slo true = .ok
      { typeMeta := { kind := "ConfigMap", apiVersion := "v1" }
        metadata := { name := "pyrra-recording-rule-" ++ slo.name, ns := slo.ns
                      labels := slo.labels
                      ownerReferences := [{ apiVersion := slo.apiVersion, kind := slo.kind
                                            name := slo.name, uid := slo.uid
                                            controller := true }] }
        data := [("pyrra-recording-rule-" ++ slo.name ++ ".rules.yaml",
                  yamlMarshal { groups := [inc, burn, gen] })] } := by
    simp [makeConfigMap, hint, hinc, hburn, hgen]
  refine ⟨hmk, ?_⟩
  intro r reqNs reqName st cm hG hmem
  cases hlk : lookupObj st.configMaps (reqNs, "pyrra-recording-rule-" ++ slo.name) with
  | none =>
    simp only [reconcileConfigMap, hG, hmk, hlk, finishConfigMap, writeStatus] at hmem
    rcases hmem with hmem | hmem <;> simp_all
  | some ex =>
    simp only [reconcileConfigMap, hG, hmk, hlk, finishConfigMap, writeStatus] at hmem
    rcases hmem with hmem | hmem <;> simp_all

/-- C8 witness: the spec scenario — Objective orders-availability in
namespace team-a, config-bundle backend, generic rules enabled and
supported — yields the bundle named
pyrra-recording-rule-orders-availability with its single payload key
and three serialized rule groups. -/
theorem c8_witness :
    makeConfigMap ("pyrra-recording-rule-" ++ sampleSLO.name) sampleSLO true = .ok
      { typeMeta := { kind := "ConfigMap", apiVersion := "v1" }
        metadata := { name := "pyrra-recording-rule-" ++ sampleSLO.name, ns := sampleSLO.ns
                      labels := sampleSLO.labels
                      ownerReferences := [{ apiVersion := sampleSLO.apiVersion
                                            kind := sampleSLO.kind
                                            name := sampleSLO.name, uid := sampleSLO.uid
                                            controller := true }] }
        data := [("pyrra-recording-rule-" ++ sampleSLO.name ++ ".rules.yaml",
                  yamlMarshal { groups := [sampleIncrease, sampleBurnrate, sampleGeneric] })] } :=
  (c8_config_bundle sampleSLO sampleObjective sampleIncrease sampleBurnrate sampleGeneric
    rfl rfl rfl rfl).1

/-- C9: every built in-cluster artifact (engine-native rule object and
config bundle) carries exactly one owner reference consisting of the
source Objective's API version, kind, name and UID, with controller
ownership asserted true. -/
theorem c9_owner_reference (slo : ServiceLevelObjective) (g : Bool) (n : String) :
    (∀ pr, makePrometheusRule slo g = .ok pr →
      pr.metadata.ownerReferences =
        [{ apiVersion := slo.apiVersion, kind := slo.kind, name := slo.name
           uid := slo.uid, controller := true }])
    ∧ (∀ cm, makeConfigMap n slo g = .ok cm →
      cm.metadata.ownerReferences =
        [{ apiVersion := slo.apiVersion, kind := slo.kind, name := slo.name
           uid := slo.uid, controller := true }]) := by
  constructor
  · intro pr h
    unfold makePrometheusRule at h
    repeat' split at h
    all_goals simp_all
    all_goals (subst h; rfl)
  · intro cm h
    unfold makeConfigMap at h
    repeat' split at h
    all_goals simp_all
    all_goals (subst h; rfl)

/-- C9 witness: the sample Objective's engine-native artifact carries
exactly its owner reference. -/
theorem c9_witness :
    (okD {} (makePrometheusRule sampleSLO true)).metadata.ownerReferences =
      [{ apiVersion := sampleSLO.apiVersion, kind := sampleSLO.kind
         name := sampleSLO.name, uid := sampleSLO.uid, controller := true }] :=
  (c9_owner_reference sampleSLO true "x").1 (okD {} (makePrometheusRule sampleSLO true)) rfl

/-! ## Claims about the reconcile dispatcher and the upsert protocol -/

/-- C2 (amended): the backend path is selected from the static process
configuration alone: with config-map mode on, every artifact write of
an invocation goes through the config-bundle backend; with it off,
every artifact write goes through the remote-push or the engine-native
backend, and a successful invocation on a present Objective writes
through both of them — a single invocation is not limited to one
backend. -/
theorem c2_backend_selection (r : Reconciler) (inj : Injections)
    (reqNs reqName : String) (st : StoreState) :
    (r.configMapMode = true →
      ∀ x ∈ writeBackends (Reconcile r inj reqNs reqName st).trace,
        x = Backend.configBundle)
    ∧ (r.configMapMode = false →
      (∀ x ∈ writeBackends (Reconcile r inj reqNs reqName st).trace,
        x = Backend.remotePush ∨ x = Backend.engineNative)
      ∧ ((Reconcile r inj reqNs reqName st).result = .ok () → st.slo ≠ none →
        Backend.remotePush ∈ writeBackends (Reconcile r inj reqNs reqName st).trace
        ∧ Backend.engineNative ∈ writeBackends (Reconcile r inj reqNs reqName st).trace)) := by
  cases hse : inj.getSLOErr with
  | some m =>
    have hre : Reconcile r inj reqNs reqName st =
        { state := st, trace := [.getSLO reqNs reqName]
          result := .error (.wrap "getting SLO" (.other m)) } := by
      simp [Reconcile, hse]
    refine ⟨fun _ x hx => ?_, fun _ => ⟨fun x hx => ?_, fun hok _ => ?_⟩⟩
    · rw [hre] at hx
      simp [writeBackends, Call.isArtifactWrite, Call.isCreateOp, Call.isUpdateOp] at hx
    · rw [hre] at hx
      simp [writeBackends, Call.isArtifactWrite, Call.isCreateOp, Call.isUpdateOp] at hx
    · rw [hre] at hok
      simp at hok
  | none =>
    cases hslo : st.slo with
    | none =>
      have hre : Reconcile r inj reqNs reqName st =
          { state := st, trace := [.getSLO reqNs reqName], result := .ok () } := by
        simp [Reconcile, hse, hslo]
      refine ⟨fun _ x hx => ?_, fun _ => ⟨fun x hx => ?_, fun hok hne => ?_⟩⟩
      · rw [hre] at hx
        simp [writeBackends, Call.isArtifactWrite, Call.isCreateOp, Call.isUpdateOp] at hx
      · rw [hre] at hx
        simp [writeBackends, Call.isArtifactWrite, Call.isCreateOp, Call.isUpdateOp] at hx
      · exact absurd rfl hne
    | some slo =>
      cases hmode : r.configMapMode with
      | true =>
        have hre : Reconcile r inj reqNs reqName st =
            { state := (reconcileConfigMap r inj reqNs reqName slo st).state
              trace := .getSLO reqNs reqName ::
                (reconcileConfigMap r inj reqNs reqName slo st).trace
              result := (reconcileConfigMap r inj reqNs reqName slo st).result } := by
          simp [Reconcile, hse, hslo, hmode]
        refine ⟨?_, fun hfalse => by simp [hmode] at hfalse⟩
        intro _ x hx
        rw [hre] at hx
        simp only [writeBackends_cons_getSLO] at hx
        exact reconcileConfigMap_backends r inj reqNs reqName slo st x hx
      | false =>
        refine ⟨fun htrue => by simp [hmode] at htrue, fun _ => ⟨?_, ?_⟩⟩
        · intro x hx
          cases hmr : (reconcileMimirRuleGroup r inj reqNs reqName slo st).result with
          | error e =>
            have hre : Reconcile r inj reqNs reqName st =
                { state := (reconcileMimirRuleGroup r inj reqNs reqName slo st).state
                  trace := .getSLO reqNs reqName ::
                    (reconcileMimirRuleGroup r inj reqNs reqName slo st).trace
                  result := .error e } := by
              simp [Reconcile, hse, hslo, hmode, hmr]
            rw [hre] at hx
            simp only [writeBackends_cons_getSLO] at hx
            exact .inl (reconcileMimirRuleGroup_backends r inj reqNs reqName slo st x hx)
          | ok u =>
            cases u
            have hre : Reconcile r inj reqNs reqName st =
                { state := (reconcilePrometheusRule r inj reqNs reqName slo
                    (reconcileMimirRuleGroup r inj reqNs reqName slo st).state).state
                  trace := .getSLO reqNs reqName ::
                    ((reconcileMimirRuleGroup r inj reqNs reqName slo st).trace ++
                      (reconcilePrometheusRule r inj reqNs reqName slo
                        (reconcileMimirRuleGroup r inj reqNs reqName slo st).state).trace)
                  result := (reconcilePrometheusRule r inj reqNs reqName slo
                    (reconcileMimirRuleGroup r inj reqNs reqName slo st).state).result } := by
              simp [Reconcile, hse, hslo, hmode, hmr]
            rw [hre] at hx
            simp only [writeBackends_cons_getSLO, writeBackends_append,
              List.mem_append] at hx
            rcases hx with h | h
            · exact .inl (reconcileMimirRuleGroup_backends r inj reqNs reqName slo st x h)
            · exact .inr (reconcilePrometheusRule_backends r inj reqNs reqName slo _ x h)
        · intro hok hne
          cases hmr : (reconcileMimirRuleGroup r inj reqNs reqName slo st).result with
          | error e =>
            have hre : Reconcile r inj reqNs reqName st =
                { state := (reconcileMimirRuleGroup r inj reqNs reqName slo st).state
                  trace := .getSLO reqNs reqName ::
                    (reconcileMimirRuleGroup r inj reqNs reqName slo st).trace
                  result := .error e } := by
              simp [Reconcile, hse, hslo, hmode, hmr]
            rw [hre] at hok
            simp at hok
          | ok u =>
            cases u
            have hre : Reconcile r inj reqNs reqName st =
                { state := (reconcilePrometheusRule r inj reqNs reqName slo
                    (reconcileMimirRuleGroup r inj reqNs reqName slo st).state).state
                  trace := .getSLO reqNs reqName ::
                    ((reconcileMimirRuleGroup r inj reqNs reqName slo st).trace ++
                      (reconcilePrometheusRule r inj reqNs reqName slo
                        (reconcileMimirRuleGroup r inj reqNs reqName slo st).state).trace)
                  result := (reconcilePrometheusRule r inj reqNs reqName slo
                    (reconcileMimirRuleGroup r inj reqNs reqName slo st).state).result } := by
              simp [Reconcile, hse, hslo, hmode, hmr]
            have hok2 : (reconcilePrometheusRule r inj reqNs reqName slo
                (reconcileMimirRuleGroup r inj reqNs reqName slo st).state).result
                  = .ok () := by
              rw [hre] at hok
              exact hok
            refine ⟨?_, ?_⟩
            · rw [hre]
              simp only [writeBackends_cons_getSLO, writeBackends_append, List.mem_append]
              exact Or.inl (reconcileMimirRuleGroup_ok_write r inj reqNs reqName slo st hmr)
            · rw [hre]
              simp only [writeBackends_cons_getSLO, writeBackends_append, List.mem_append]
              exact Or.inr (reconcilePrometheusRule_ok_write r inj reqNs reqName slo _ hok2)

/-- C2 counterexample: with config-map mode off, a single reconcile
invocation of the sample Objective writes artifacts through two
distinct backends, remote-push and engine-native. -/
theorem c2_counterexample :
    writeBackends (Reconcile mimirCfg {} "team-a" "orders-availability" sampleState).trace
      = [Backend.remotePush, Backend.engineNative, Backend.engineNative]
    ∧ Backend.remotePush ≠ Backend.engineNative := by decide

/-- C2 witness: a successful config-map-mode-off run on the sample
store writes through both the remote-push and the engine-native
backend. -/
theorem c2_witness :
    Backend.remotePush ∈
      writeBackends (Reconcile mimirCfg {} "team-a" "orders-availability" sampleState).trace
    ∧ Backend.engineNative ∈
      writeBackends (Reconcile mimirCfg {} "team-a" "orders-availability" sampleState).trace :=
  ((c2_backend_selection mimirCfg {} "team-a" "orders-availability" sampleState).2 rfl).2
    (by decide) (by decide)

/-- C3 (code bug): in the remote-push path the status sub-resource
update is issued before the rule-group push and carries the fetched
object's stale status; Status.Type is set to "MimirRule" on the local
copy only after that update and is never written back, so a successful
push leaves a persisted status type that is not "MimirRule". -/
theorem c3_status_update_order :
    (reconcileMimirRuleGroup mimirCfg {} "team-a" "orders-availability" sampleSLO
        sampleState).result = .ok ()
    ∧ (reconcileMimirRuleGroup mimirCfg {} "team-a" "orders-availability" sampleSLO
        sampleState).trace.head? = some (.statusUpdate sampleSLO)
    ∧ (reconcileMimirRuleGroup mimirCfg {} "team-a" "orders-availability" sampleSLO
        sampleState).trace.map Call.isArtifactWrite = [false, true]
    ∧ sampleSLO.status.type = ""
    ∧ ((reconcileMimirRuleGroup mimirCfg {} "team-a" "orders-availability" sampleSLO
        sampleState).state.slo.map (fun s => s.status.type)) = some ""
    ∧ ("" : String) ≠ "MimirRule" := by decide

/-- C7 (amended): the engine-native and config-bundle upserters follow
the claimed sequence — fetch by identity; a non-not-found fetch error
returns immediately with no create or update; a not-found fetch leads
to a create, whose failure is returned with no further action, while
otherwise the fetched revision token (the zero value after a create) is
copied onto the new artifact and update is called unconditionally.  The
remote-push upserter does not follow this sequence: it performs no
fetch and no update, unconditionally issuing its create call. -/
theorem c7_upsert_protocol :
    (∀ r inj a b slo st nr,
      makePrometheusRule slo r.genericRules = .ok nr →
      (∀ m, inj.getPromRuleErr = some m →
        (reconcilePrometheusRule r inj a b slo st).trace = [.getPromRule a b]
        ∧ (reconcilePrometheusRule r inj a b slo st).result
            = .error (.wrap "failed to get prometheus rule" (.other m)))
      ∧ (∀ m, inj.getPromRuleErr = none → lookupObj st.promRules (a, b) = none →
          inj.createPromRuleErr = some m →
          (reconcilePrometheusRule r inj a b slo st).trace
            = [.getPromRule a b, .createPromRule nr]
          ∧ (reconcilePrometheusRule r inj a b slo st).result = .error (.other m))
      ∧ (inj.getPromRuleErr = none → lookupObj st.promRules (a, b) = none →
          inj.createPromRuleErr = none →
          (reconcilePrometheusRule r inj a b slo st).trace.take 3
            = [.getPromRule a b, .createPromRule nr,
               .updatePromRule
                 { nr with metadata := { nr.metadata with resourceVersion := "" } }])
      ∧ (∀ ex, inj.getPromRuleErr = none → lookupObj st.promRules (a, b) = some ex →
          (reconcilePrometheusRule r inj a b slo st).trace.take 2
            = [.getPromRule a b,
               .updatePromRule { nr with metadata := { nr.metadata with
                 resourceVersion := ex.metadata.resourceVersion } }]))
    ∧ (∀ r inj a b slo st ncm,
      makeConfigMap ("pyrra-recording-rule-" ++ slo.name) slo r.genericRules = .ok ncm →
      (∀ m, inj.getConfigMapErr = some m →
        (reconcileConfigMap r inj a b slo st).trace
          = [.getConfigMap a ("pyrra-recording-rule-" ++ slo.name)]
        ∧ (reconcileConfigMap r inj a b slo st).result
            = .error (.wrap "failed to get config map" (.other m)))
      ∧ (∀ m, inj.getConfigMapErr = none →
          lookupObj st.configMaps (a, "pyrra-recording-rule-" ++ slo.name) = none →
          inj.createConfigMapErr = some m →
          (reconcileConfigMap r inj a b slo st).trace
            = [.getConfigMap a ("pyrra-recording-rule-" ++ slo.name), .createConfigMap ncm]
          ∧ (reconcileConfigMap r inj a b slo st).result
              = .error (.wrap "failed to create config map" (.other m)))
      ∧ (inj.getConfigMapErr = none →
          lookupObj st.configMaps (a, "pyrra-recording-rule-" ++ slo.name) = none →
          inj.createConfigMapErr = none →
          (reconcileConfigMap r inj a b slo st).trace.take 3
            = [.getConfigMap a ("pyrra-recording-rule-" ++ slo.name), .createConfigMap ncm,
               .updateConfigMap
                 { ncm with metadata := { ncm.metadata with resourceVersion := "" } }])
      ∧ (∀ ex, inj.getConfigMapErr = none →
          lookupObj st.configMaps (a, "pyrra-recording-rule-" ++ slo.name) = some ex →
          (reconcileConfigMap r inj a b slo st).trace.take 2
            = [.getConfigMap a ("pyrra-recording-rule-" ++ slo.name),
               .updateConfigMap { ncm with metadata := { ncm.metadata with
                 resourceVersion := ex.metadata.resourceVersion } }]))
    ∧ (∀ r inj a b slo st,
      ((reconcileMimirRuleGroup r inj a b slo st).trace.all
        (fun c => !c.isFetch && !c.isUpdateOp)) = true) := by
  refine ⟨?_, ?_, ?_⟩
  · intro r inj a b slo st nr hmk
    refine ⟨fun m hge => ?_, fun m hge hlk hce => ?_, fun hge hlk hce => ?_,
      fun ex hge hlk => ?_⟩
    · constructor <;> simp [reconcilePrometheusRule, hmk, hge]
    · constructor <;> simp [reconcilePrometheusRule, hmk, hge, hlk, hce]
    · simp only [reconcilePrometheusRule, hmk, hge, hlk, hce]
      unfold finishPromRule
      repeat' split
      all_goals simp
    · simp only [reconcilePrometheusRule, hmk, hge, hlk]
      unfold finishPromRule
      repeat' split
      all_goals simp
  · intro r inj a b slo st ncm hmk
    refine ⟨fun m hge => ?_, fun m hge hlk hce => ?_, fun hge hlk hce => ?_,
      fun ex hge hlk => ?_⟩
    · constructor <;> simp [reconcileConfigMap, hmk, hge]
    · constructor <;> simp [reconcileConfigMap, hmk, hge, hlk, hce]
    · simp only [reconcileConfigMap, hmk, hge, hlk, hce]
      unfold finishConfigMap
      repeat' split
      all_goals simp
    · simp only [reconcileConfigMap, hmk, hge, hlk]
      unfold finishConfigMap
      repeat' split
      all_goals simp
  · intro r inj a b slo st
    exact reconcileMimirRuleGroup_no_fetch_no_update r inj a b slo st

def preexistingGroup : RWRuleGroup :=
  { name := "orders-availability", interval := 30 * second }

def mimirPopulatedState : StoreState :=
  { slo := some sampleSLO
    mimirGroups := [(("orders-availability", "orders-availability"), preexistingGroup)] }

/-- C7 counterexample: the remote-push upserter performs no fetch and
no update even when its rule group already exists in the store; it
unconditionally issues the create call, so it does not follow the
claimed uniform fetch/create-or-update sequence. -/
theorem c7_counterexample :
    lookupObj mimirPopulatedState.mimirGroups ("orders-availability", "orders-availability")
      = some preexistingGroup
    ∧ (reconcileMimirRuleGroup mimirCfg {} "team-a" "orders-availability" sampleSLO
        mimirPopulatedState).trace.filter Call.isFetch = []
    ∧ (reconcileMimirRuleGroup mimirCfg {} "team-a" "orders-availability" sampleSLO
        mimirPopulatedState).trace.filter Call.isUpdateOp = []
    ∧ ((reconcileMimirRuleGroup mimirCfg {} "team-a" "orders-availability" sampleSLO
        mimirPopulatedState).trace.filter Call.isCreateOp).length = 1 := by decide

/-- C7 witness: on a fresh store the engine-native upserter fetches,
creates, and then updates with the zero revision token. -/
theorem c7_witness :
    (reconcilePrometheusRule mimirCfg {} "team-a" "orders-availability" sampleSLO
        sampleState).trace.take 3
      = [.getPromRule "team-a" "orders-availability",
         .createPromRule (okD {} (makePrometheusRule sampleSLO mimirCfg.genericRules)),
         .updatePromRule
           { okD {} (makePrometheusRule sampleSLO mimirCfg.genericRules) with
             metadata := { (okD {} (makePrometheusRule sampleSLO
               mimirCfg.genericRules)).metadata with resourceVersion := "" } }] :=
  (c7_upsert_protocol.1 mimirCfg {} "team-a" "orders-availability" sampleSLO sampleState
    (okD {} (makePrometheusRule sampleSLO mimirCfg.genericRules)) rfl).2.2.1 rfl rfl rfl

/-- C10: with config-map mode off, the dispatcher runs the remote-push
path first: if it fails, the invocation returns that error and the
trace contains no engine-native operation, so the PrometheusRule
artifact is neither created nor updated; only on remote-push success
does the invocation proceed to the engine-native path, whose
operations follow the remote-push operations. -/
theorem c10_mimir_before_prometheus (r : Reconciler) (inj : Injections)
    (a b : String) (st : StoreState) (slo : ServiceLevelObjective)
    (hmode : r.configMapMode = false) (hget : inj.getSLOErr = none)
    (hslo : st.slo = some slo) :
    (∀ e, (reconcileMimirRuleGroup r inj a b slo st).result = .error e →
      (Reconcile r inj a b st).result = .error e
      ∧ (Reconcile r inj a b st).trace
          = .getSLO a b :: (reconcileMimirRuleGroup r inj a b slo st).trace
      ∧ ∀ c ∈ (Reconcile r inj a b st).trace, c.backend ≠ some Backend.engineNative)
    ∧ ((reconcileMimirRuleGroup r inj a b slo st).result = .ok () →
      (Reconcile r inj a b st).trace
        = .getSLO a b :: ((reconcileMimirRuleGroup r inj a b slo st).trace
            ++ (reconcilePrometheusRule r inj a b slo
                  (reconcileMimirRuleGroup r inj a b slo st).state).trace)) := by
  constructor
  · intro e he
    have hre : Reconcile r inj a b st =
        { state := (reconcileMimirRuleGroup r inj a b slo st).state
          trace := .getSLO a b :: (reconcileMimirRuleGroup r inj a b slo st).trace
          result := .error e } := by
      simp [Reconcile, hget, hslo, hmode, he]
    refine ⟨by rw [hre], by rw [hre], ?_⟩
    intro c hc
    rw [hre] at hc
    simp only [List.mem_cons] at hc
    rcases hc with rfl | hc
    · simp [Call.backend]
    · exact reconcileMimirRuleGroup_not_engine r inj a b slo st c hc
  · intro hok
    have hre : Reconcile r inj a b st =
        { state := (reconcilePrometheusRule r inj a b slo
            (reconcileMimirRuleGroup r inj a b slo st).state).state
          trace := .getSLO a b :: ((reconcileMimirRuleGroup r inj a b slo st).trace
            ++ (reconcilePrometheusRule r inj a b slo
                  (reconcileMimirRuleGroup r inj a b slo st).state).trace)
          result := (reconcilePrometheusRule r inj a b slo
            (reconcileMimirRuleGroup r inj a b slo st).state).result } := by
      simp [Reconcile, hget, hslo, hmode, hok]
    rw [hre]

def pushFailInjections : Injections := { mimirCreateErr := some "mimir unavailable" }

/-- C10 witness: a failing remote push aborts the invocation with the
push error, the trace ending at the remote-push call. -/
theorem c10_witness :
    (Reconcile mimirCfg pushFailInjections "team-a" "orders-availability" sampleState).result
      = .error (.other "mimir unavailable")
    ∧ (Reconcile mimirCfg pushFailInjections "team-a" "orders-availability"
        sampleState).trace
      = .getSLO "team-a" "orders-availability" ::
        (reconcileMimirRuleGroup mimirCfg pushFailInjections "team-a" "orders-availability"
          sampleSLO sampleState).trace :=
  have h := (c10_mimir_before_prometheus mimirCfg pushFailInjections "team-a"
    "orders-availability" sampleState sampleSLO rfl rfl rfl).1
    (.other "mimir unavailable") (by decide)
  ⟨h.1, h.2.1⟩

/-- C1 counterexample: on the second of two successive reconcile
invocations with no intervening external change (config-map mode off),
the remote-push backend's store write is still a create call, not an
update: the second trace contains exactly one create, through the
remote-push backend. -/
theorem c1_counterexample :
    (Reconcile mimirCfg {} "team-a" "orders-availability"
        (Reconcile mimirCfg {} "team-a" "orders-availability" sampleState).state).trace.filterMap
      (fun c => if c.isCreateOp then c.backend else none) = [Backend.remotePush] := by
  decide

/-- C1 (amended): reconciliation is idempotent on artifacts: with no
intervening external change, the update writes of a second invocation
are byte-for-byte identical to those of the first, the second
invocation performs no engine-native or config-bundle create, and the
remote-push backend issues the identical create call on both
invocations (its write stays a create, not an update). -/
theorem c1_reconcile_idempotent (cfg : Reconciler) (st : StoreState)
    (slo : ServiceLevelObjective) (g : RWRuleGroup) (pr : PrometheusRule) (cm : ConfigMap)
    (hslo : st.slo = some slo)
    (hm : makeMimirRuleGroup slo cfg.genericRules cfg.mimirWriteAlertingRules = .ok g)
    (hp : makePrometheusRule slo cfg.genericRules = .ok pr)
    (hc : makeConfigMap ("pyrra-recording-rule-" ++ slo.name) slo cfg.genericRules = .ok cm) :
    ((Reconcile cfg {} slo.ns slo.name
        (Reconcile cfg {} slo.ns slo.name st).state).trace.filter Call.isUpdateOp
      = (Reconcile cfg {} slo.ns slo.name st).trace.filter Call.isUpdateOp)
    ∧ ((Reconcile cfg {} slo.ns slo.name
        (Reconcile cfg {} slo.ns slo.name st).state).trace.filter
          (fun c => c.isCreateOp && !(decide (c.backend = some Backend.remotePush))) = [])
    ∧ ((Reconcile cfg {} slo.ns slo.name
        (Reconcile cfg {} slo.ns slo.name st).state).trace.filter
          (fun c => c.isCreateOp && decide (c.backend = some Backend.remotePush))
      = (Reconcile cfg {} slo.ns slo.name st).trace.filter
          (fun c => c.isCreateOp && decide (c.backend = some Backend.remotePush))) := by
  obtain ⟨hpn, hpns, hprv⟩ := makePrometheusRule_ok_meta hp
  obtain ⟨hcn, hcns, hcrv⟩ := makeConfigMap_ok_meta hc
  cases hmode : cfg.configMapMode with
  | true =>
    cases hlk : lookupObj st.configMaps (slo.ns, "pyrra-recording-rule-" ++ slo.name) with
    | none =>
      refine ⟨?_, ?_, ?_⟩ <;>
        simp [Reconcile, reconcileConfigMap, finishConfigMap, writeStatus, hslo, hmode,
          hc, hlk, hcn, hcns, hcrv, makeConfigMap_status, lookupObj_upsertObj,
          Call.isUpdateOp, Call.isCreateOp, Call.backend]
    | some ex =>
      refine ⟨?_, ?_, ?_⟩ <;>
        simp [Reconcile, reconcileConfigMap, finishConfigMap, writeStatus, hslo, hmode,
          hc, hlk, hcn, hcns, hcrv, makeConfigMap_status, lookupObj_upsertObj,
          Call.isUpdateOp, Call.isCreateOp, Call.backend]
  | false =>
    cases hlk : lookupObj st.promRules (slo.ns, slo.name) with
    | none =>
      refine ⟨?_, ?_, ?_⟩ <;>
        simp [Reconcile, reconcileMimirRuleGroup, reconcilePrometheusRule, finishPromRule,
          writeStatus, hslo, hmode, hm, hp, hlk, hpn, hpns, hprv,
          makePrometheusRule_status, makeMimirRuleGroup_status, lookupObj_upsertObj,
          Call.isUpdateOp, Call.isCreateOp, Call.backend]
    | some ex =>
      refine ⟨?_, ?_, ?_⟩ <;>
        simp [Reconcile, reconcileMimirRuleGroup, reconcilePrometheusRule, finishPromRule,
          writeStatus, hslo, hmode, hm, hp, hlk, hpn, hpns, hprv,
          makePrometheusRule_status, makeMimirRuleGroup_status, lookupObj_upsertObj,
          Call.isUpdateOp, Call.isCreateOp, Call.backend]

/-- C1 witness: two successive runs on the sample store with
config-map mode off perform identical update writes, the second run
performs no engine-native or config-bundle create, and the remote-push
create calls of the two runs coincide. -/
theorem c1_witness :
    ((Reconcile mimirCfg {} sampleSLO.ns sampleSLO.name
        (Reconcile mimirCfg {} sampleSLO.ns sampleSLO.name sampleState).state).trace.filter
          Call.isUpdateOp
      = (Reconcile mimirCfg {} sampleSLO.ns sampleSLO.name sampleState).trace.filter
          Call.isUpdateOp)
    ∧ ((Reconcile mimirCfg {} sampleSLO.ns sampleSLO.name
        (Reconcile mimirCfg {} sampleSLO.ns sampleSLO.name sampleState).state).trace.filter
          (fun c => c.isCreateOp && !(decide (c.backend = some Backend.remotePush))) = [])
    ∧ ((Reconcile mimirCfg {} sampleSLO.ns sampleSLO.name
        (Reconcile mimirCfg {} sampleSLO.ns sampleSLO.name sampleState).state).trace.filter
          (fun c => c.isCreateOp && decide (c.backend = some Backend.remotePush))
      = (Reconcile mimirCfg {} sampleSLO.ns sampleSLO.name sampleState).trace.filter
          (fun c => c.isCreateOp && decide (c.backend = some Backend.remotePush))) :=
  c1_reconcile_idempotent mimirCfg sampleState sampleSLO
    (okD {} (makeMimirRuleGroup sampleSLO mimirCfg.genericRules
      mimirCfg.mimirWriteAlertingRules))
    (okD {} (makePrometheusRule sampleSLO mimirCfg.genericRules))
    (okD {} (makeConfigMap ("pyrra-recording-rule-" ++ sampleSLO.name) sampleSLO
      mimirCfg.genericRules))
    rfl rfl rfl rfl

end Pyrra
